import Mathlib

/-!
Verification of the core backup/restore logic of PGKeeper (src/PGKeeper.py),
a CLI tool that drives pg_dump, pg_restore and psql through subprocesses.

The Python source is shallowly embedded as pure Lean functions:

* environments (Python dicts of environment variables) are functions
  `String → Option String`;
* the filesystem visible to `os.path.isdir`, `os.path.exists` and
  `os.makedirs` is a small explicit state `FileSystem`;
* the external process boundary (`subprocess.run`) is a `Runner` parameter
  producing a `SpawnResult` (exit code, or an OS-level launch failure such as
  FileNotFoundError / PermissionError);
* `subprocess.run(cmd, check=True)` semantics plus the source's
  `except subprocess.CalledProcessError` handler are embedded by `runChecked`:
  exit 0 runs the success branch, a nonzero exit raises CalledProcessError
  which the handler catches, and a launch failure raises an OSError that the
  handler does not catch, so it escapes the operation as an uncaught
  exception;
* `str.endswith` / `str.startswith` are embedded over `String.data`;
* the timestamp (`datetime.now().strftime`) is an input parameter.
-/

namespace PGKeeper

/-- A process environment, as Python's `os.environ` dict: a partial map from
variable names to values. -/
def Env := String → Option String

/-- Embedding of lines 80-81 and 135-136 of the source:
`env = os.environ.copy(); env["PGPASSWORD"] = password`.
The base environment is copied and the single key `PGPASSWORD` is set. -/
def injectPGPassword (baseEnv : Env) (password : String) : Env :=
  fun k => if k = "PGPASSWORD" then some password else baseEnv k

/-- The filesystem state visible to the source through `os.path.isdir` and
`os.makedirs`: the set of existing directories, the set of existing plain
files, and which paths the process may create (modelling OS permission
failures, the source's `except Exception` case around `os.makedirs`). -/
structure FileSystem where
  dirs : List String
  files : List String
  writable : String → Bool

/-- `os.path.isdir`. -/
def FileSystem.isdir (fs : FileSystem) (p : String) : Bool := fs.dirs.contains p

/-- `os.path.exists`: the path names an existing directory or file. -/
def FileSystem.pathExists (fs : FileSystem) (p : String) : Bool :=
  fs.dirs.contains p || fs.files.contains p

/-- `os.makedirs(d, exist_ok=existOk)`: succeeds silently on an existing
directory when `existOk`, raises `FileExistsError` on an existing directory
otherwise, creates the directory when the OS permits, and raises
`PermissionError` when it does not. (Creation of intermediate path components
is not modelled; no claim depends on it.) -/
def makedirs (fs : FileSystem) (d : String) (existOk : Bool) :
    Except String FileSystem :=
  if fs.dirs.contains d then
    if existOk then .ok fs else .error "FileExistsError"
  else if fs.writable d then .ok ⟨d :: fs.dirs, fs.files, fs.writable⟩
  else .error "PermissionError"

/-- Python `str.endswith`, used at line 152 of the source
(`backup_file.endswith(".sql")`). -/
def strEndsWith (s suffix : String) : Bool := suffix.data.isSuffixOf s.data

/-- Python `str.startswith`, used by `os.path.join` to detect an absolute
second component. -/
def strStartsWith (s pre : String) : Bool := pre.data.isPrefixOf s.data

/-- POSIX `os.path.join(a, b)` for two components, as used at lines 66 and 70
of the source: an absolute second component replaces the first; otherwise the
components are joined, inserting a separator unless the first component is
empty or already ends with one. -/
def osPathJoin (a b : String) : String :=
  if strStartsWith b "/" then b
  else if a = "" ∨ strEndsWith a "/" then a ++ b
  else a ++ "/" ++ b

/-- The extension table at line 69 of the source:
`".dump" if dump_format == 'c' else ".tar" if dump_format == 't' else ".sql"`. -/
def backupFileExt (dump_format : String) : String :=
  if dump_format = "c" then ".dump" else if dump_format = "t" then ".tar" else ".sql"

/-- Lines 64-70 of the source: the timestamped backup path. For directory
format the base name `backup_<dbname>_<timestamp>` is used as-is; otherwise
the extension from `backupFileExt` is appended. -/
def backupPath (backup_dir dbname timestamp dump_format : String) : String :=
  if dump_format = "d" then
    osPathJoin backup_dir ("backup_" ++ dbname ++ "_" ++ timestamp)
  else
    osPathJoin backup_dir
      ("backup_" ++ dbname ++ "_" ++ timestamp ++ backupFileExt dump_format)

/-- The artifact produced by the backup path computation, together with its
shape: the `'d'` branch of lines 65-70 names a directory that `pg_dump -F d`
will create, every other branch names a single file. -/
structure ArtifactLocation where
  path : String
  isDirectory : Bool
deriving DecidableEq

/-- Lines 64-70 of the source as an artifact builder: the path from
`backupPath` with the shape determined by the format branch. -/
def buildArtifact (backup_dir dbname timestamp dump_format : String) :
    ArtifactLocation :=
  ⟨backupPath backup_dir dbname timestamp dump_format, dump_format == "d"⟩

/-- Lines 84-106 of the source: the pg_dump command list. Directory format
omits `-b` (include large objects); every other format includes it. -/
def backupCmd (host : String) (port : Int)
    (username dbname backup_path dump_format : String) : List String :=
  if dump_format = "d" then
    ["pg_dump", "-h", host, "-p", toString port, "-U", username,
     "-F", dump_format, "-v", "-f", backup_path, dbname]
  else
    ["pg_dump", "-h", host, "-p", toString port, "-U", username,
     "-F", dump_format, "-b", "-v", "-f", backup_path, dbname]

/-- Lines 139-170 of the source: the restore command list. A directory
artifact uses pg_restore with the directory as positional argument; a file
ending in `.sql` uses psql with `-f`; any other file uses pg_restore with the
file as positional argument. -/
def restoreCmd (isDir : Bool) (host : String) (port : Int)
    (username dbname backup_file : String) : List String :=
  if isDir then
    ["pg_restore", "-h", host, "-p", toString port, "-U", username,
     "-d", dbname, "-v", backup_file]
  else if strEndsWith backup_file ".sql" then
    ["psql", "-h", host, "-p", toString port, "-U", username,
     "-d", dbname, "-f", backup_file]
  else
    ["pg_restore", "-h", host, "-p", toString port, "-U", username,
     "-d", dbname, "-v", backup_file]

/-- What the OS reports for one `subprocess.run` call: the child exited with
a status code, or the child could not be launched at all (missing executable,
permission denied) and an OSError was raised. -/
inductive SpawnResult where
  | exited (code : Int)
  | launchFailure (oserror : String)
deriving DecidableEq

/-- Outcome of the source's `try: subprocess.run(cmd, env=env, check=True)
... except subprocess.CalledProcessError` block. `check=True` raises
CalledProcessError exactly on a nonzero exit status, which the handler
catches (`failure`); exit 0 reaches the success branch; a launch failure
raises an OSError that the `except` clause does not match, so it propagates
out of the command as an uncaught exception. -/
inductive Outcome where
  | success
  | failure (exitCode : Int)
  | uncaughtException (oserror : String)
deriving DecidableEq

/-- Lines 109-115 and 173-179 of the source: run the planned command and
map the process result through the try/except block. -/
def runChecked (r : SpawnResult) : Outcome :=
  match r with
  | .exited code => if code = 0 then .success else .failure code
  | .launchFailure e => .uncaughtException e

/-- The external process boundary: given a command list and an environment,
the OS produces a `SpawnResult`. -/
def Runner := List String → Env → SpawnResult

/-- Result of one whole `backup` or `restore` invocation: either the
operation returned before any external process was spawned (the `except`
branch around `os.makedirs`, lines 75-77), or a command was spawned and the
try/except block produced an `Outcome`. -/
inductive OpResult where
  | abortedBeforeSpawn (msg : String)
  | ran (cmd : List String) (outcome : Outcome)
deriving DecidableEq

/-- `true` iff the invocation returned before spawning any process. -/
def OpResult.isAborted : OpResult → Bool
  | .abortedBeforeSpawn _ => true
  | .ran _ _ => false

/-- `true` on a caught nonzero-exit `Outcome.failure`. -/
def Outcome.isFailure : Outcome → Bool
  | .failure _ => true
  | _ => false

/-- Lines 55-115 of the source: the `backup` command body. Computes the
timestamped path, ensures the backup root exists (returning early on
failure), injects `PGPASSWORD`, builds the pg_dump command and runs it. -/
def backup (fs : FileSystem) (host : String) (port : Int)
    (username dbname backup_dir dump_format password timestamp : String)
    (baseEnv : Env) (runner : Runner) : OpResult :=
  let path := backupPath backup_dir dbname timestamp dump_format
  match makedirs fs backup_dir true with
  | .error e => .abortedBeforeSpawn e
  | .ok _ =>
    let env := injectPGPassword baseEnv password
    let cmd := backupCmd host port username dbname path dump_format
    .ran cmd (runChecked (runner cmd env))

/-- Lines 127-179 of the source: the `restore` command body. Injects
`PGPASSWORD`, selects the tool from `os.path.isdir` and the `.sql` suffix
(no existence check appears in the source), and runs the command. -/
def restore (fs : FileSystem) (host : String) (port : Int)
    (username dbname backup_file password : String)
    (baseEnv : Env) (runner : Runner) : OpResult :=
  let env := injectPGPassword baseEnv password
  let cmd := restoreCmd (fs.isdir backup_file) host port username dbname backup_file
  .ran cmd (runChecked (runner cmd env))

/-- An empty filesystem where every path is creatable: no directories, no
files. -/
def fsEmpty : FileSystem := ⟨[], [], fun _ => true⟩

/-- An empty base environment. -/
def envEmpty : Env := fun _ => none

/-- A runner whose child always exits with status 1. -/
def runnerExit1 : Runner := fun _ _ => .exited 1

/-- A runner whose child always exits with status 0. -/
def runnerExit0 : Runner := fun _ _ => .exited 0

/-- A filesystem with one plain file `./plain.sql`, everything creatable. -/
def fsOneFile : FileSystem := ⟨[], ["./plain.sql"], fun _ => true⟩

/-- A filesystem where nothing exists and nothing may be created. -/
def fsReadOnly : FileSystem := ⟨[], [], fun _ => false⟩

/-- The literal prefix of every backup artifact base name has length 7. -/
theorem backup_lit_length : ("backup_" : String).length = 7 := rfl

/-- Joining a nonempty, non-absolute second component onto a base path never
returns the base path itself: the result is strictly longer. -/
theorem osPathJoin_ne_left (a s : String)
    (hpre : strStartsWith s "/" = false) (hlen : 0 < s.length) :
    osPathJoin a s ≠ a := by
  intro heq
  have hlen2 := congrArg String.length heq
  simp only [osPathJoin, hpre, Bool.false_eq_true, if_false] at hlen2
  split_ifs at hlen2 with h
  · rw [String.length_append] at hlen2
    omega
  · rw [String.length_append, String.length_append] at hlen2
    have : ("/" : String).length = 1 := rfl
    omega

/-- Claim C1: restore tool selection follows the ordered decision table: a
directory artifact is restored with pg_restore taking the directory as its
single positional argument (with host, port, username, target-database and
verbose flags); otherwise a path ending in `.sql` is restored with psql via
the `-f` input-file flag (no verbose flag); every other path is restored
with pg_restore taking the file as its final positional argument. -/
theorem restore_follows_decision_table (fs : FileSystem) (host : String)
    (port : Int) (username dbname backup_file password : String)
    (baseEnv : Env) (runner : Runner) :
    restore fs host port username dbname backup_file password baseEnv runner =
      (let cmd :=
        if fs.isdir backup_file then
          ["pg_restore", "-h", host, "-p", toString port, "-U", username,
           "-d", dbname, "-v", backup_file]
        else if strEndsWith backup_file ".sql" then
          ["psql", "-h", host, "-p", toString port, "-U", username,
           "-d", dbname, "-f", backup_file]
        else
          ["pg_restore", "-h", host, "-p", toString port, "-U", username,
           "-d", dbname, "-v", backup_file]
       OpResult.ran cmd
         (runChecked (runner cmd (injectPGPassword baseEnv password)))) := rfl

/-- Claim C2: backing up database `orders` at `localhost:5432` as `alice`
with custom format plans pg_dump with exactly the argument sequence
`-h localhost -p 5432 -U alice -F c -b -v -f <artifact path> orders`. -/
theorem backup_scenario_custom_format (artifactPath : String) :
    backupCmd "localhost" 5432 "alice" "orders" artifactPath "c" =
      ["pg_dump", "-h", "localhost", "-p", "5432", "-U", "alice", "-F", "c",
       "-b", "-v", "-f", artifactPath, "orders"] := rfl

/-- Claim C5: the backup artifact path is the backup root joined with the
base name `backup_<dbname>_<timestamp>`; directory format uses it as-is and
yields a Directory-shaped artifact, while the other formats append the fixed
extension (Custom `.dump`, Tar `.tar`, Plain `.sql`) and yield File shape. -/
theorem artifact_path_and_shape (backup_dir dbname timestamp : String) :
    buildArtifact backup_dir dbname timestamp "d" =
      ⟨osPathJoin backup_dir ("backup_" ++ dbname ++ "_" ++ timestamp), true⟩ ∧
    buildArtifact backup_dir dbname timestamp "c" =
      ⟨osPathJoin backup_dir
        ("backup_" ++ dbname ++ "_" ++ timestamp ++ ".dump"), false⟩ ∧
    buildArtifact backup_dir dbname timestamp "t" =
      ⟨osPathJoin backup_dir
        ("backup_" ++ dbname ++ "_" ++ timestamp ++ ".tar"), false⟩ ∧
    buildArtifact backup_dir dbname timestamp "p" =
      ⟨osPathJoin backup_dir
        ("backup_" ++ dbname ++ "_" ++ timestamp ++ ".sql"), false⟩ :=
  ⟨rfl, rfl, rfl, rfl⟩

/-- Claim C9: injecting the credential copies the base environment and
differs from it only at `PGPASSWORD`, which maps to the password; every
other variable reads exactly as in the base environment. -/
theorem injectPGPassword_sets_only_pgpassword (baseEnv : Env) (password : String) :
    injectPGPassword baseEnv password "PGPASSWORD" = some password ∧
    ∀ k, k ≠ "PGPASSWORD" → injectPGPassword baseEnv password k = baseEnv k := by
  refine ⟨rfl, fun k hk => ?_⟩
  simp [injectPGPassword, hk]

theorem injectPGPassword_sets_only_pgpassword_witness :
    injectPGPassword envEmpty "s3cret" "PGPASSWORD" = some "s3cret" ∧
    injectPGPassword envEmpty "s3cret" "PATH" = envEmpty "PATH" :=
  ⟨(injectPGPassword_sets_only_pgpassword envEmpty "s3cret").1,
   (injectPGPassword_sets_only_pgpassword envEmpty "s3cret").2 "PATH" (by decide)⟩

/-- Claim C3: as long as the password does not coincide with one of the
other command ingredients (tool names, fixed flags, host, port text,
username, database, paths, format tag), it appears nowhere in a planned
backup or restore argument sequence; the credential reaches the child only
as the `PGPASSWORD` environment variable. -/
theorem password_only_in_environment (host : String) (port : Int)
    (username dbname artifactPath backup_file dump_format password : String)
    (baseEnv : Env)
    (hp : password ∉ ["pg_dump", "pg_restore", "psql", "-h", "-p", "-U", "-F",
      "-b", "-v", "-f", "-d", host, toString port, username, dbname,
      artifactPath, backup_file, dump_format]) :
    password ∉ backupCmd host port username dbname artifactPath dump_format ∧
    (∀ isDir, password ∉ restoreCmd isDir host port username dbname backup_file) ∧
    injectPGPassword baseEnv password "PGPASSWORD" = some password := by
  simp only [List.mem_cons, List.not_mem_nil, or_false, not_or] at hp
  obtain ⟨q1, q2, q3, q4, q5, q6, q7, q8, q9, q10, q11, q12, q13, q14, q15,
    q16, q17, q18⟩ := hp
  refine ⟨?_, fun isDir => ?_, rfl⟩
  · by_cases hdm : dump_format = "d"
    · subst hdm
      simp [backupCmd, q1, q4, q5, q6, q7, q9, q10, q12, q13, q14, q15,
        q16, q18]
    · simp [backupCmd, hdm, q1, q4, q5, q6, q7, q8, q9, q10, q12, q13, q14,
        q15, q16, q18]
  · cases isDir <;>
      by_cases hsql : strEndsWith backup_file ".sql" = true <;>
        simp [restoreCmd, hsql, q1, q2, q3, q4, q5, q6, q7, q8, q9, q10,
          q11, q12, q13, q14, q15, q16, q17, q18]

theorem password_only_in_environment_witness :
    "s3cret" ∉ backupCmd "localhost" 5432 "alice" "orders" "./backups/b.dump" "c" ∧
    "s3cret" ∉ restoreCmd false "localhost" 5432 "alice" "orders" "x.sql" ∧
    injectPGPassword envEmpty "s3cret" "PGPASSWORD" = some "s3cret" := by
  have h := password_only_in_environment "localhost" 5432 "alice" "orders"
    "./backups/b.dump" "x.sql" "c" "s3cret" envEmpty (by decide)
  exact ⟨h.1, h.2.1 false, h.2.2⟩

/-- Claim C4: the pg_dump argument sequence contains the large-object flag
`-b` exactly for the non-directory formats, and for each such format the
command is otherwise identical to the directory-format command: erasing
`-b` leaves the directory command with only the format value swapped. -/
theorem backup_large_object_flag (host : String) (port : Int)
    (username dbname artifactPath : String)
    (hh : host ≠ "-b") (hq : toString port ≠ "-b") (hu : username ≠ "-b")
    (hd : dbname ≠ "-b") (ha : artifactPath ≠ "-b") :
    "-b" ∉ backupCmd host port username dbname artifactPath "d" ∧
    ∀ f, f ∈ ["c", "t", "p"] →
      "-b" ∈ backupCmd host port username dbname artifactPath f ∧
      (backupCmd host port username dbname artifactPath f).erase "-b" =
        (backupCmd host port username dbname artifactPath "d").set 8 f := by
  constructor
  · simp [backupCmd, Ne.symm hh, Ne.symm hq, Ne.symm hu, Ne.symm hd, Ne.symm ha]
  · intro f hf
    have hbeq : ∀ x : String, x ≠ "-b" → (x == "-b") = false := by
      intro x hx
      exact beq_eq_false_iff_ne.mpr hx
    simp only [List.mem_cons, List.not_mem_nil, or_false] at hf
    rcases hf with rfl | rfl | rfl
    all_goals
      refine ⟨by simp [backupCmd], ?_⟩
    all_goals
      simp [backupCmd, List.erase_cons, hbeq host hh, hbeq _ hq, hbeq _ hu,
        hbeq _ ha]

theorem backup_large_object_flag_witness :
    "-b" ∉ backupCmd "localhost" 5432 "alice" "orders" "./backups/p" "d" ∧
    "-b" ∈ backupCmd "localhost" 5432 "alice" "orders" "./backups/p" "c" ∧
    (backupCmd "localhost" 5432 "alice" "orders" "./backups/p" "c").erase "-b" =
      (backupCmd "localhost" 5432 "alice" "orders" "./backups/p" "d").set 8 "c" := by
  have h := backup_large_object_flag "localhost" 5432 "alice" "orders"
    "./backups/p" (by decide) (by decide) (by decide) (by decide) (by decide)
  exact ⟨h.1, (h.2 "c" (by decide)).1, (h.2 "c" (by decide)).2⟩

/-- Counterexample to claim C6: with an empty filesystem the caller-supplied
path `missing.dump` does not exist, yet the restore invocation does not
abort before spawning — it spawns pg_restore on the missing path and the
outcome is the external tool's nonzero exit, not an ArtifactNotFoundError. -/
theorem restore_missing_artifact_spawns_cx :
    fsEmpty.pathExists "missing.dump" = false ∧
    restore fsEmpty "localhost" 5432 "alice" "orders" "missing.dump" "pw"
        envEmpty runnerExit1 =
      OpResult.ran ["pg_restore", "-h", "localhost", "-p", "5432", "-U",
        "alice", "-d", "orders", "-v", "missing.dump"] (Outcome.failure 1) ∧
    (restore fsEmpty "localhost" 5432 "alice" "orders" "missing.dump" "pw"
        envEmpty runnerExit1).isAborted = false :=
  ⟨rfl, rfl, rfl⟩

/-- Claim C6 as amended: the source performs no existence check on the
restore artifact; for every filesystem in which the path does not exist the
invocation still plans a command by the non-directory rules and spawns it,
so a missing artifact surfaces only through the spawned tool's outcome,
never as a pre-spawn ArtifactNotFoundError abort. -/
theorem restore_missing_artifact_still_spawns (fs : FileSystem)
    (host : String) (port : Int)
    (username dbname backup_file password : String)
    (baseEnv : Env) (runner : Runner)
    (h : fs.pathExists backup_file = false) :
    restore fs host port username dbname backup_file password baseEnv runner =
      OpResult.ran (restoreCmd false host port username dbname backup_file)
        (runChecked (runner (restoreCmd false host port username dbname backup_file)
          (injectPGPassword baseEnv password))) ∧
    (restore fs host port username dbname backup_file password baseEnv
      runner).isAborted = false := by
  have hd : fs.isdir backup_file = false := by
    unfold FileSystem.pathExists at h
    unfold FileSystem.isdir
    cases hc : fs.dirs.contains backup_file
    · rfl
    · rw [hc] at h
      simp at h
  constructor
  · simp only [restore, hd]
  · simp only [restore, OpResult.isAborted]

theorem restore_missing_artifact_still_spawns_witness :
    restore fsEmpty "localhost" 5432 "alice" "orders" "absent.tar" "pw"
        envEmpty runnerExit0 =
      OpResult.ran (restoreCmd false "localhost" 5432 "alice" "orders" "absent.tar")
        (runChecked (runnerExit0
          (restoreCmd false "localhost" 5432 "alice" "orders" "absent.tar")
          (injectPGPassword envEmpty "pw"))) :=
  (restore_missing_artifact_still_spawns fsEmpty "localhost" 5432 "alice"
    "orders" "absent.tar" "pw" envEmpty runnerExit0 rfl).1

/-- Counterexample to claim C7: a failure to launch the external program
(the OSError that `subprocess.run` raises for a missing executable) is not
mapped to a Failure outcome — the source's `except` clause catches only
CalledProcessError, so the launch error escapes as an uncaught exception. -/
theorem launch_failure_uncaught_cx :
    runChecked (SpawnResult.launchFailure "FileNotFoundError: pg_dump") =
      Outcome.uncaughtException "FileNotFoundError: pg_dump" ∧
    (runChecked
      (SpawnResult.launchFailure "FileNotFoundError: pg_dump")).isFailure = false ∧
    runChecked (SpawnResult.launchFailure "FileNotFoundError: pg_dump") ≠
      Outcome.success :=
  ⟨rfl, rfl, by decide⟩

/-- Claim C7 as amended: a zero exit status yields Success and any nonzero
exit status yields Failure carrying that status, but a failure to launch the
external program is not converted to a Failure outcome: the launch error
propagates out of the operation as an uncaught exception. -/
theorem runChecked_exit_status_mapping (c : Int) (e : String) (hc : c ≠ 0) :
    runChecked (SpawnResult.exited 0) = Outcome.success ∧
    runChecked (SpawnResult.exited c) = Outcome.failure c ∧
    runChecked (SpawnResult.launchFailure e) = Outcome.uncaughtException e ∧
    (runChecked (SpawnResult.launchFailure e)).isFailure = false := by
  refine ⟨rfl, ?_, rfl, rfl⟩
  simp [runChecked, hc]

theorem runChecked_exit_status_mapping_witness :
    runChecked (SpawnResult.exited 0) = Outcome.success ∧
    runChecked (SpawnResult.exited 2) = Outcome.failure 2 ∧
    runChecked (SpawnResult.launchFailure "ENOENT") =
      Outcome.uncaughtException "ENOENT" ∧
    (runChecked (SpawnResult.launchFailure "ENOENT")).isFailure = false :=
  runChecked_exit_status_mapping 2 "ENOENT" (by decide)

/-- Claim C8: if creating the backup root fails the backup aborts with the
directory-creation error before any process is spawned (the result is the
same for every runner); an already-existing root is not an error (idempotent
creation); a successful creation adds at most the root itself, and the final
artifact path is never the root, so the builder never creates the artifact
entry. The two `strStartsWith` hypotheses record that the base name
`backup_...` is not an absolute path, which holds for every database name
and timestamp. -/
theorem backup_root_directory_handling (fs : FileSystem) (host : String)
    (port : Int)
    (username dbname backup_dir dump_format password timestamp : String)
    (baseEnv : Env) (r1 r2 : Runner)
    (h1 : strStartsWith ("backup_" ++ dbname ++ "_" ++ timestamp) "/" = false)
    (h2 : strStartsWith
      ("backup_" ++ dbname ++ "_" ++ timestamp ++ backupFileExt dump_format)
      "/" = false) :
    (∀ e, makedirs fs backup_dir true = .error e →
      backup fs host port username dbname backup_dir dump_format password
          timestamp baseEnv r1 = OpResult.abortedBeforeSpawn e ∧
      backup fs host port username dbname backup_dir dump_format password
          timestamp baseEnv r1 =
        backup fs host port username dbname backup_dir dump_format password
          timestamp baseEnv r2) ∧
    (fs.dirs.contains backup_dir = true →
      makedirs fs backup_dir true = .ok fs) ∧
    (∀ fs2, makedirs fs backup_dir true = .ok fs2 →
      ∀ p, p ∈ fs2.dirs → p ∈ fs.dirs ∨ p = backup_dir) ∧
    backupPath backup_dir dbname timestamp dump_format ≠ backup_dir := by
  refine ⟨fun e he => ?_, fun hc => ?_, fun fs2 hok p hp => ?_, ?_⟩
  · constructor <;> simp only [backup, he]
  · unfold makedirs
    rw [hc]
    simp
  · unfold makedirs at hok
    split_ifs at hok with hin hw
    · cases hok
      exact Or.inl hp
    · cases hok
      rcases List.mem_cons.mp hp with rfl | hmem
      · exact Or.inr rfl
      · exact Or.inl hmem
  · unfold backupPath
    split_ifs with hfmt
    · refine osPathJoin_ne_left backup_dir _ h1 ?_
      simp only [String.length_append, backup_lit_length]
      omega
    · refine osPathJoin_ne_left backup_dir _ h2 ?_
      simp only [String.length_append, backup_lit_length]
      omega

theorem backup_root_directory_handling_witness :
    backup fsReadOnly "localhost" 5432 "alice" "orders" "./backups" "c" "pw"
        "20240101_120000" envEmpty runnerExit1 =
      OpResult.abortedBeforeSpawn "PermissionError" ∧
    makedirs fsEmpty "./backups" true =
      Except.ok ⟨["./backups"], [], fun _ => true⟩ ∧
    backupPath "./backups" "orders" "20240101_120000" "c" ≠ "./backups" := by
  have h := backup_root_directory_handling fsReadOnly "localhost" 5432
    "alice" "orders" "./backups" "c" "pw" "20240101_120000" envEmpty
    runnerExit1 runnerExit0 (by decide) (by decide)
  exact ⟨(h.1 "PermissionError" rfl).1, rfl, h.2.2.2⟩

/-- Claim C10: when the artifact path is not a directory, tool selection
depends only on the `.sql` suffix of the path string: the invocation is
identical across any two filesystems in which the path is not a directory
(existence and contents are never consulted), and the selected program is
psql exactly when the path ends in `.sql`, pg_restore otherwise. -/
theorem restore_nondirectory_choice_depends_only_on_suffix
    (fs1 fs2 : FileSystem) (host : String) (port : Int)
    (username dbname backup_file password : String)
    (baseEnv : Env) (runner : Runner)
    (hd1 : fs1.isdir backup_file = false)
    (hd2 : fs2.isdir backup_file = false) :
    restore fs1 host port username dbname backup_file password baseEnv runner =
      restore fs2 host port username dbname backup_file password baseEnv runner ∧
    restore fs1 host port username dbname backup_file password baseEnv runner =
      OpResult.ran (restoreCmd false host port username dbname backup_file)
        (runChecked (runner (restoreCmd false host port username dbname backup_file)
          (injectPGPassword baseEnv password))) ∧
    (restoreCmd false host port username dbname backup_file).head? =
      some (if strEndsWith backup_file ".sql" then "psql" else "pg_restore") := by
  refine ⟨?_, ?_, ?_⟩
  · simp only [restore, hd1, hd2]
  · simp only [restore, hd1]
  · by_cases hsql : strEndsWith backup_file ".sql" = true <;>
      simp [restoreCmd, hsql]

theorem restore_nondirectory_choice_witness :
    restore fsEmpty "localhost" 5432 "alice" "orders" "./plain.sql" "pw"
        envEmpty runnerExit1 =
      restore fsOneFile "localhost" 5432 "alice" "orders" "./plain.sql" "pw"
        envEmpty runnerExit1 ∧
    (restoreCmd false "localhost" 5432 "alice" "orders" "./plain.sql").head? =
      some (if strEndsWith "./plain.sql" ".sql" then "psql" else "pg_restore") := by
  have h := restore_nondirectory_choice_depends_only_on_suffix fsEmpty
    fsOneFile "localhost" 5432 "alice" "orders" "./plain.sql" "pw" envEmpty
    runnerExit1 rfl rfl
  exact ⟨h.1, h.2.2⟩

end PGKeeper
